import Mathlib

/-!
# Mask R-CNN orchestration core (`mask_rcnn_pytorch/maskrcnn.cpp`)

A shallow embedding of `MaskRCNNImpl`: the build-time image-size check and
batch-norm freezing (`Build`), the trainable-layer selector
(`SetTrainableLayers`), the checkpoint path resolver (`GetCheckpointPath`) and
the control flow of the two forward passes and of `Detect`.

Conventions.
* Tensor elements are `float`s in the source; here the element type is a
  parameter `α`, and no property below depends on floating-point arithmetic.
* Calls into the tensor runtime whose result can raise (`permute`, `narrow`,
  broadcasting division, `cat`) return `Except`.
* Sub-networks and layers defined in other translation units (`fpn_`, `rpn_`,
  `classifier_`, `mask_`, `ProposalLayer`, `DetectionLayer`,
  `DetectionTargetLayer`, `is_empty`) are fields of `Collaborators`.
-/

namespace MaskRCNN

/-! ## Strings -/

/-- Position of the first occurrence of `pat` in `s`, as `std::string::find`;
`none` stands for `std::string::npos`. -/
def find (s pat : List Char) : Option Nat :=
  if pat.isPrefixOf s then some 0
  else
    match s with
    | [] => none
    | _ :: t => (find t pat).map (· + 1)

/-- The test `s.find(pat) != std::string::npos`. -/
def contains_substr (s pat : String) : Bool :=
  (find s.data pat.data).isSome

/-! ## Build: the image-size check -/

/-- Conversion `static_cast<int32_t>(double)`: truncation toward zero. The
argument is the exact value held by the `double`. -/
def static_cast_int32 (q : ℚ) : Int :=
  if 0 ≤ q then ⌊q⌋ else ⌈q⌉

/-- Configuration fields read by the orchestration core. `image_shape` is a
vector of 32-bit integers. -/
structure Config where
  image_shape : List Int
  gpu_count : Int
  post_nms_rois_training : Int
  post_nms_rois_inference : Int

/-- The condition of the `if` at the head of `Build`; `true` means that
`std::invalid_argument` is thrown. Converting a 32-bit integer to `double` is
exact, and so is a division of such a `double` by `64.0`, hence the quotients
are computed in `ℚ`. Integer `/` in C++ truncates toward zero (`Int.tdiv`). -/
def image_size_check (h w : Int) : Bool :=
  let p : Int := static_cast_int32 ((2 : ℚ) ^ 6)
  static_cast_int32 ((h : ℚ) / (p : ℚ)) != Int.tdiv h p ||
    static_cast_int32 ((w : ℚ) / (p : ℚ)) != Int.tdiv w p

/-! ## Module tree -/

/-- Handle of a parameter tensor. -/
abbrev TensorId := Nat

/-- A `torch::nn::Module`: `name` is the type name returned by `name()`,
`parameters_` the module's own parameters by key, `children_` the registered
sub-modules by key. -/
inductive Module where
  | mk (name : String) (parameters_ : List (String × TensorId))
      (children_ : List (String × Module))

/-- Type name of a module, `Module::name()`. -/
def Module.name : Module → String
  | .mk n _ _ => n

/-- The helper `join_name` of `torch::nn::Module`. -/
def join_name (pfx name : String) : String :=
  if pfx.isEmpty then name else pfx ++ "." ++ name

mutual
/-- Result of `named_parameters(/*recurse=*/true)`, pre-order, keys qualified
with the path `pfx` of the module. -/
def Module.named_parameters : String → Module → List (String × TensorId)
  | pfx, .mk _ ps cs =>
    ps.map (fun p => (join_name pfx p.1, p.2)) ++ named_parameters_children pfx cs
/-- Parameters of a list of children. -/
def named_parameters_children : String → List (String × Module) → List (String × TensorId)
  | _, [] => []
  | pfx, (k, c) :: rest =>
    Module.named_parameters (join_name pfx k) c ++ named_parameters_children pfx rest
end

/-- Result of `parameters()` (recursive by default): the handles of
`named_parameters`. -/
def Module.parameters (m : Module) : List TensorId :=
  (Module.named_parameters "" m).map Prod.snd

/-- The `requires_grad` flag of every parameter tensor, by handle. -/
abbrev GradFlags := TensorId → Bool

/-- Effect of `p.set_requires_grad(v)` on the tensor with handle `p`. -/
def set_requires_grad (flags : GradFlags) (p : TensorId) (v : Bool) : GradFlags :=
  fun q => if q = p then v else flags q

mutual
/-- The call `Module::apply(function, name_prefix)` with a
`NamedModuleApplyFunction`: the function is called on the module with its
path, then on every descendant with its dotted path, in pre-order. The state
`σ` is what the function mutates (gradient flags, module modes). -/
def Module.apply {σ : Type} (f : String → Module → σ → σ) :
    String → Module → σ → σ
  | pfx, .mk n ps cs, st => apply_children f pfx cs (f pfx (.mk n ps cs) st)
/-- Loop of `apply_to_submodules` over the children. -/
def apply_children {σ : Type} (f : String → Module → σ → σ) :
    String → List (String × Module) → σ → σ
  | _, [], st => st
  | pfx, (k, c) :: rest, st =>
    apply_children f pfx rest (Module.apply f (join_name pfx k) c st)
end

/-- The lambda `set_bn_fix` of `Build`: it tests the path `name` under which
the module is registered. -/
def set_bn_fix (name : String) (m : Module) (flags : GradFlags) : GradFlags :=
  if contains_substr name "BatchNorm" then
    m.parameters.foldl (fun fl p => set_requires_grad fl p false) flags
  else flags

/-- The test of the lambda `set_bn_eval` of `PredictTraining`: it looks at the
type name `m.name()`. -/
def is_bn_module (m : Module) : Bool :=
  contains_substr m.name "BatchNorm"

/-- The function `Build`. The four sub-networks come from constructors defined
elsewhere and are given as module trees; the result is the root module with
its registered children and the gradient flags after `apply(set_bn_fix)`. -/
def Build (config_ : Config) (fpn_ rpn_ classifier_ mask_ : Module)
    (flags : GradFlags) : Except String (Module × GradFlags) :=
  let h := config_.image_shape.getD 0 0
  let w := config_.image_shape.getD 1 0
  if image_size_check h w then
    .error "Image size must be dividable by 2 at least 6 times to avoid fractions when downscaling and upscaling.For example, use 256, 320, 384, 448, 512, ... etc. "
  else
    let root := Module.mk "MaskRCNNImpl" []
      [("fpn", fpn_), ("rpn", rpn_), ("classifier", classifier_), ("mask", mask_)]
    .ok (root, Module.apply set_bn_fix "" root flags)

/-! ## Module modes -/

/-- The `is_training` flag of every module, by dotted path. -/
abbrev ModeFlags := String → Bool

mutual
/-- The call `Module::train(mode)` on the module registered at path `pfx`: the
children first, then the module itself. -/
def Module.train (mode : Bool) : String → Module → ModeFlags → ModeFlags
  | pfx, .mk _ _ cs, modes =>
    let modes := train_children mode pfx cs modes
    fun q => if q = pfx then mode else modes q
/-- Loop of `train` over the children. -/
def train_children (mode : Bool) : String → List (String × Module) → ModeFlags → ModeFlags
  | _, [], modes => modes
  | pfx, (k, c) :: rest, modes =>
    train_children mode pfx rest (Module.train mode (join_name pfx k) c modes)
end

/-- The lambda `set_bn_eval` of `PredictTraining`: `m.eval()` when the type
name of `m` contains `BatchNorm`. -/
def set_bn_eval (name : String) (m : Module) (modes : ModeFlags) : ModeFlags :=
  if is_bn_module m then Module.train false name m modes else modes

/-! ## SetTrainableLayers -/

/-- Read-out of the dictionary `named_parameters(true)` of a module tree: every
qualified name with the current `requires_grad` flag of the tensor it refers
to. -/
def Module.named_parameter_flags (root : Module) (flags : GradFlags) :
    List (String × Bool) :=
  (Module.named_parameters "" root).map (fun p => (p.1, flags p.2))

/-- The loop of `SetTrainableLayers` over the items of `named_parameters(true)`.
`regex_match name re` is `std::regex_match(name, m, re)` for the compiled
pattern `re`, a match of the whole string; `param.value().set_requires_grad(false)`
acts on the tensor behind the handle. -/
def SetTrainableLayers_loop {Regex : Type} (regex_match : String → Regex → Bool)
    (re : Regex) : List (String × TensorId) → GradFlags → GradFlags
  | [], flags => flags
  | param :: params, flags =>
    let layer_name := param.1
    let is_trainable := regex_match layer_name re
    SetTrainableLayers_loop regex_match re params
      (if !is_trainable then set_requires_grad flags param.2 false else flags)

/-- The function `SetTrainableLayers` on the module tree `root` of the model:
the gradient flags after the call. -/
def SetTrainableLayers {Regex : Type} (regex_match : String → Regex → Bool)
    (re : Regex) (root : Module) (flags : GradFlags) : GradFlags :=
  let params := Module.named_parameters "" root
  SetTrainableLayers_loop regex_match re params flags

/-! ## GetCheckpointPath -/

/-- Decimal text of an unsigned integer, `std::to_string`. -/
def to_string (v : Nat) : List Char :=
  Nat.toDigits 10 v

/-- Directory separator test of `fs::path`. -/
def is_dir_sep (c : Char) : Bool :=
  c = '/'

/-- The operator `/` of `fs::path` on native strings: a separator is inserted
unless the left side is empty or ends with one, or the right side is empty or
starts with one. -/
def path_append (lhs p : List Char) : List Char :=
  if !lhs.isEmpty && !(lhs.getLast?.any is_dir_sep) && !p.isEmpty &&
      !(p.head?.any is_dir_sep) then
    lhs ++ '/' :: p
  else lhs ++ p

/-- File name built by `GetCheckpointPath`. -/
def checkpoint_file_name (epoch : Nat) : List Char :=
  "checkpoint_epoch_".data ++ to_string epoch ++ ".pt".data

/-- The function `GetCheckpointPath`. -/
def GetCheckpointPath (model_dir_ : String) (epoch : Nat) : String :=
  String.mk (path_append model_dir_.data (checkpoint_file_name epoch))

/-- Device of a tensor. -/
inductive Device where
  | CPU
  | CUDA
deriving DecidableEq

/-- Element type tag of a tensor. -/
inductive ScalarType where
  | kFloat
  | kInt
deriving DecidableEq

/-- An `at::Tensor`: its sizes, the element at every multi-index, and the
attributes the orchestration core touches. -/
structure Tensor (α : Type) where
  sizes : List Nat
  elem_at : List Nat → α
  dtype : ScalarType
  device : Device
  requires_grad : Bool

/-- Number of dimensions, `dim()`. -/
def Tensor.dim {α : Type} (t : Tensor α) : Nat :=
  t.sizes.length

/-- Number of elements, `numel()`: the product of the sizes, `1` for a
zero-dimensional tensor. -/
def Tensor.numel {α : Type} (t : Tensor α) : Nat :=
  t.sizes.prod

/-- Copy on the host, `cpu()`. -/
def Tensor.cpu {α : Type} (t : Tensor α) : Tensor α :=
  { t with device := Device.CPU }

/-- Copy on the accelerator, `cuda()`. -/
def Tensor.cuda {α : Type} (t : Tensor α) : Tensor α :=
  { t with device := Device.CUDA }

/-- The factory `torch::empty(sizes, dtype)`: a host tensor of the given sizes
whose elements are whatever the fresh memory holds (`uninit`). -/
def torch_empty {α : Type} (uninit : List Nat → α) (sizes : List Nat)
    (dtype : ScalarType) : Tensor α :=
  { sizes := sizes, elem_at := uninit, dtype := dtype, device := Device.CPU,
    requires_grad := false }

/-- The factory `torch::tensor({a, b, c, d}, kFloat)`: a one-dimensional host
tensor holding the listed values. -/
def torch_tensor {α : Type} (a b c d : α) : Tensor α :=
  { sizes := [4], elem_at := fun idx => [a, b, c].getD (idx.headD 0) d,
    dtype := ScalarType.kFloat, device := Device.CPU, requires_grad := false }

/-- The view `unsqueeze(d)`: a dimension of size one inserted at position `d`. -/
def Tensor.unsqueeze {α : Type} (t : Tensor α) (d : Nat) : Except String (Tensor α) :=
  if d ≤ t.dim then
    .ok { t with sizes := t.sizes.take d ++ 1 :: t.sizes.drop d,
                 elem_at := fun idx => t.elem_at (idx.eraseIdx d) }
  else .error "Dimension out of range"

/-- The view `permute(dims)`: dimension `i` of the result is dimension
`dims[i]` of the argument; `dims` must list every dimension once. -/
def Tensor.permute {α : Type} (t : Tensor α) (dims : List Nat) :
    Except String (Tensor α) :=
  if dims.length = t.dim ∧ ∀ j ∈ List.range t.dim, j ∈ dims then
    .ok { t with sizes := dims.map (fun d => t.sizes.getD d 0),
                 elem_at := fun idx =>
                   t.elem_at ((List.range t.dim).map (fun j => idx.getD (dims.indexOf j) 0)) }
  else .error "number of dims don't match in permute"

/-- The view `narrow(d, start, length)`. -/
def Tensor.narrow {α : Type} (t : Tensor α) (d start length : Nat) :
    Except String (Tensor α) :=
  if d < t.dim ∧ start + length ≤ t.sizes.getD d 0 then
    .ok { t with sizes := t.sizes.set d length,
                 elem_at := fun idx => t.elem_at (idx.set d (idx.getD d 0 + start)) }
  else .error "start out of range"

/-- Broadcast of two size lists given last dimension first. -/
def broadcast_sizes : List Nat → List Nat → Option (List Nat)
  | [], ys => some ys
  | x :: xs, [] => some (x :: xs)
  | x :: xs, y :: ys =>
    if x = y ∨ y = 1 then (broadcast_sizes xs ys).map (x :: ·)
    else if x = 1 then (broadcast_sizes xs ys).map (y :: ·)
    else none

/-- Index into an operand of sizes `sizes` for the result index `idx` of a
broadcast operation, both given last dimension first. -/
def broadcast_index : List Nat → List Nat → List Nat
  | [], _ => []
  | _ :: ss, [] => 0 :: broadcast_index ss []
  | s :: ss, i :: is => (if s = 1 then 0 else i) :: broadcast_index ss is

/-- The operator `/` of two tensors, with broadcasting; operands on different
devices are refused. -/
def Tensor.div {α : Type} [Div α] (a b : Tensor α) : Except String (Tensor α) :=
  if a.device ≠ b.device then .error "Expected all tensors to be on the same device"
  else
    match broadcast_sizes a.sizes.reverse b.sizes.reverse with
    | none => .error "The size of tensor a must match the size of tensor b"
    | some s =>
      .ok { sizes := s.reverse,
            elem_at := fun idx =>
              a.elem_at (broadcast_index a.sizes.reverse idx.reverse).reverse /
                b.elem_at (broadcast_index b.sizes.reverse idx.reverse).reverse,
            dtype := a.dtype, device := a.device,
            requires_grad := a.requires_grad || b.requires_grad }

/-- Element of the concatenation of `t :: rest` along dimension `d`. -/
def cat_elem {α : Type} (d : Nat) : Tensor α → List (Tensor α) → List Nat → α
  | t, [], idx => t.elem_at idx
  | t, u :: rest, idx =>
    if idx.getD d 0 < t.sizes.getD d 0 then t.elem_at idx
    else cat_elem d u rest (idx.set d (idx.getD d 0 - t.sizes.getD d 0))

/-- The function `torch::cat(tensors, d)`. -/
def torch_cat {α : Type} (tensors : List (Tensor α)) (d : Nat) : Except String (Tensor α) :=
  match tensors with
  | [] => .error "torch.cat(): expected a non-empty list of Tensors"
  | t :: rest =>
    if d < t.dim ∧ ∀ u ∈ rest, u.sizes.eraseIdx d = t.sizes.eraseIdx d ∧ u.dim = t.dim ∧
        u.device = t.device then
      .ok { t with sizes := t.sizes.set d ((t :: rest).map (fun u => u.sizes.getD d 0)).sum,
                   elem_at := cat_elem d t rest }
    else .error "Sizes of tensors must match except in the concatenation dimension"

/-! ## Forward passes -/

/-- Components invoked by the forward passes. -/
inductive Call where
  | fpn
  | rpn
  | ProposalLayer
  | classifier
  | mask
  | DetectionLayer
  | DetectionTargetLayer
deriving DecidableEq

/-- The parts defined outside `maskrcnn.cpp` that the forward passes call:
the sub-networks, the layers, the emptiness test `is_empty`, and the content
of freshly allocated memory. `Meta` is the type `ImageMeta`. The proposal
layer receives the configuration, from which it reads `rpn_nms_threshold`. -/
structure Collaborators (α Meta : Type) where
  is_empty : Tensor α → Bool
  fpn_forward : Tensor α → Tensor α × Tensor α × Tensor α × Tensor α × Tensor α
  rpn_forward : Tensor α → Tensor α × Tensor α × Tensor α
  ProposalLayer : List (Tensor α) → Int → Tensor α → Config → Tensor α
  classifier_forward : List (Tensor α) → Tensor α → Tensor α × Tensor α × Tensor α
  mask_forward : List (Tensor α) → Tensor α → Tensor α
  DetectionLayer : Config → Tensor α → Tensor α → Tensor α → List Meta → Tensor α
  DetectionTargetLayer : Config → Tensor α → Tensor α → Tensor α → Tensor α →
    Tensor α × Tensor α × Tensor α × Tensor α
  uninitialized : List Nat → α

/-- State of a `MaskRCNNImpl` object. -/
structure MaskRCNNImpl (α : Type) where
  model_dir_ : String
  config_ : Config
  root : Module
  anchors_ : Tensor α
  requires_grad : GradFlags
  is_training : ModeFlags

/-- Outcome of a forward pass: the returned value, the components invoked in
order, and the module modes left behind. -/
structure Run (β : Type) where
  value : β
  calls : List Call
  is_training : ModeFlags

/-- The function `PredictRPN`, with the components it invokes. -/
def PredictRPN {α Meta : Type} (C : Collaborators α Meta) (self : MaskRCNNImpl α)
    (images : Tensor α) (proposal_count : Int) :
    Except String ((List (Tensor α) × Tensor α × Tensor α × Tensor α) × List Call) := do
  let (p2_out, p3_out, p4_out, p5_out, p6_out) := C.fpn_forward images
  let rpn_feature_maps := [p2_out, p3_out, p4_out, p5_out, p6_out]
  let mrcnn_feature_maps := [p2_out, p3_out, p4_out, p5_out]
  let (rpn_class_logits, rpn_class, rpn_bbox, calls) :=
    rpn_feature_maps.foldl
      (fun (acc : List (Tensor α) × List (Tensor α) × List (Tensor α) × List Call) p =>
        let (class_logits, probs, bbox) := C.rpn_forward p
        (acc.1 ++ [class_logits], acc.2.1 ++ [probs], acc.2.2.1 ++ [bbox],
          acc.2.2.2 ++ [Call.rpn]))
      ([], [], [], [Call.fpn])
  let scores ← torch_cat rpn_class 1
  let deltas ← torch_cat rpn_bbox 1
  let rpn_rois := C.ProposalLayer [scores, deltas] proposal_count self.anchors_ self.config_
  let class_logits ← torch_cat rpn_class_logits 1
  return ((mrcnn_feature_maps, rpn_rois, class_logits, deltas), calls ++ [Call.ProposalLayer])

/-- The tuple of eight tensors returned by `PredictTraining`, in order. -/
structure TrainingOutput (α : Type) where
  rpn_class_logits : Tensor α
  rpn_bbox : Tensor α
  target_class_ids : Tensor α
  mrcnn_class_logits : Tensor α
  target_deltas : Tensor α
  mrcnn_bbox : Tensor α
  target_mask : Tensor α
  mrcnn_mask : Tensor α

/-- The function `PredictTraining`. -/
def PredictTraining {α Meta : Type} [Div α] [IntCast α] (C : Collaborators α Meta)
    (self : MaskRCNNImpl α) (images gt_class_ids gt_boxes gt_masks : Tensor α) :
    Except String (Run (TrainingOutput α)) := do
  let modes := Module.train true "" self.root self.is_training
  let modes := Module.apply set_bn_eval "" self.root modes
  let ((mrcnn_feature_maps, rpn_rois, rpn_class_logits, rpn_bbox), calls) ←
    PredictRPN C self images self.config_.post_nms_rois_training
  let h : α := ((self.config_.image_shape.getD 0 0 : Int) : α)
  let w : α := ((self.config_.image_shape.getD 1 0 : Int) : α)
  let scale := torch_tensor h w h w
  let scale := if self.config_.gpu_count > 0 then scale.cuda else scale
  let gt_boxes ← gt_boxes.div scale
  let (rois, target_class_ids, target_deltas, target_mask) :=
    C.DetectionTargetLayer self.config_ rpn_rois gt_class_ids gt_boxes gt_masks
  let calls := calls ++ [Call.DetectionTargetLayer]
  let mrcnn_class_logits := torch_empty C.uninitialized [] ScalarType.kFloat
  let mrcnn_class := torch_empty C.uninitialized [] ScalarType.kInt
  let mrcnn_bbox := torch_empty C.uninitialized [] ScalarType.kFloat
  let mrcnn_mask := torch_empty C.uninitialized [] ScalarType.kFloat
  let mrcnn_class_logits :=
    if self.config_.gpu_count > 0 then mrcnn_class_logits.cuda else mrcnn_class_logits
  let _mrcnn_class := if self.config_.gpu_count > 0 then mrcnn_class.cuda else mrcnn_class
  let mrcnn_bbox := if self.config_.gpu_count > 0 then mrcnn_bbox.cuda else mrcnn_bbox
  let mrcnn_mask := if self.config_.gpu_count > 0 then mrcnn_mask.cuda else mrcnn_mask
  if !C.is_empty rois then
    let (mrcnn_class_logits, _, mrcnn_bbox) := C.classifier_forward mrcnn_feature_maps rois
    let rois ← rois.unsqueeze 0
    let mrcnn_mask := C.mask_forward mrcnn_feature_maps rois
    return { value := ⟨rpn_class_logits, rpn_bbox, target_class_ids, mrcnn_class_logits,
                        target_deltas, mrcnn_bbox, target_mask, mrcnn_mask⟩,
             calls := calls ++ [Call.classifier, Call.mask], is_training := modes }
  else
    return { value := ⟨rpn_class_logits, rpn_bbox, target_class_ids, mrcnn_class_logits,
                        target_deltas, mrcnn_bbox, target_mask, mrcnn_mask⟩,
             calls := calls, is_training := modes }

/-- The function `PredictInference`. -/
def PredictInference {α Meta : Type} [Div α] [IntCast α] (C : Collaborators α Meta)
    (self : MaskRCNNImpl α) (images : Tensor α) (image_metas : List Meta) :
    Except String (Run (Tensor α × Tensor α)) := do
  let modes := Module.train false "" self.root self.is_training
  let ((mrcnn_feature_maps, rpn_rois, _, _), calls) ←
    PredictRPN C self images self.config_.post_nms_rois_inference
  let (_, mrcnn_class, mrcnn_bbox) := C.classifier_forward mrcnn_feature_maps rpn_rois
  let detections := C.DetectionLayer self.config_ rpn_rois mrcnn_class mrcnn_bbox image_metas
  let calls := calls ++ [Call.classifier, Call.DetectionLayer]
  let mrcnn_mask := torch_empty C.uninitialized [0] ScalarType.kFloat
  if !C.is_empty detections then
    let h : α := ((self.config_.image_shape.getD 0 0 : Int) : α)
    let w : α := ((self.config_.image_shape.getD 1 0 : Int) : α)
    let scale := torch_tensor h w h w
    let scale := if self.config_.gpu_count > 0 then scale.cuda else scale
    let detection_boxes ← (← detections.narrow 1 0 4).div scale
    let detection_boxes ← detection_boxes.unsqueeze 0
    let mrcnn_mask := C.mask_forward mrcnn_feature_maps detection_boxes
    let detections ← detections.unsqueeze 0
    let mrcnn_mask ← mrcnn_mask.unsqueeze 0
    return { value := (detections, mrcnn_mask), calls := calls ++ [Call.mask],
             is_training := modes }
  else
    return { value := (detections, mrcnn_mask), calls := calls, is_training := modes }

/-- The function `Detect`. -/
def Detect {α Meta : Type} [Div α] [IntCast α] (C : Collaborators α Meta)
    (self : MaskRCNNImpl α) (images : Tensor α) (image_metas : List Meta) :
    Except String (Run (Tensor α × Tensor α)) := do
  let r ← PredictInference C self images image_metas
  let (detections, mrcnn_mask) := r.value
  let detections := detections.cpu
  if !C.is_empty mrcnn_mask then
    let mrcnn_mask := (← mrcnn_mask.permute [0, 1, 3, 4, 2]).cpu
    return { r with value := (detections, mrcnn_mask) }
  else
    return { r with value := (detections, mrcnn_mask) }

/-! ## Worked example -/

/-- Element type of the worked examples: an integer or a not-a-number value. -/
inductive Scalar where
  | num (n : Int)
  | nan
deriving DecidableEq

instance : Div Scalar :=
  ⟨fun a b =>
    match a, b with
    | Scalar.num x, Scalar.num y => if y = 0 then Scalar.nan else Scalar.num (x / y)
    | _, _ => Scalar.nan⟩

instance : IntCast Scalar :=
  ⟨Scalar.num⟩

/-- A host tensor of the given sizes whose element at an index is the number
written with the index entries as decimal digits. -/
def example_tensor (sizes : List Nat) : Tensor Scalar :=
  { sizes := sizes,
    elem_at := fun idx => Scalar.num (idx.foldl (fun acc i => 10 * acc + (i : Int)) 0),
    dtype := ScalarType.kFloat, device := Device.CPU, requires_grad := false }

/-- Collaborators of the worked examples. The detection layer returns
`detections`, the detection target layer returns `rois` as sampled rois, the
mask head returns three 5 x 7 masks per box, a tensor is empty when it has no
element, and fresh memory holds not-a-number. -/
def example_collaborators (detections rois : Tensor Scalar) : Collaborators Scalar Unit :=
  { is_empty := fun t => decide (t.numel = 0),
    fpn_forward := fun images => (images, images, images, images, images),
    rpn_forward := fun p => (p, p, p),
    ProposalLayer := fun inputs _ _ _ => inputs.headD (example_tensor [0]),
    classifier_forward := fun _ r => (r, r, r),
    mask_forward := fun _ boxes => example_tensor [boxes.sizes.getD 1 0, 3, 5, 7],
    DetectionLayer := fun _ _ _ _ _ => detections,
    DetectionTargetLayer := fun _ _ ids deltas masks => (rois, ids, deltas, masks),
    uninitialized := fun _ => Scalar.nan }

/-- Module tree of the worked examples. -/
def example_root : Module :=
  Module.mk "MaskRCNNImpl" []
    [("fpn", Module.mk "FPNImpl" [("weight", 0)]
        [("bn1", Module.mk "torch::nn::BatchNormImpl" [("weight", 1), ("bias", 2)] [])]),
     ("mask", Module.mk "MaskImpl" [("weight", 3)] [])]

/-- Module tree in which the feature pyramid and the mask head register the
same parameter tensor, with handle 0, next to a tensor of their own. -/
def example_shared_root : Module :=
  Module.mk "MaskRCNNImpl" []
    [("fpn", Module.mk "FPNImpl" [("shared", 0), ("weight", 1)] []),
     ("mask", Module.mk "MaskImpl" [("shared", 0), ("weight", 2)] [])]

/-- Model object of the worked examples: 512 x 512 images on the host. -/
def example_model : MaskRCNNImpl Scalar :=
  { model_dir_ := "/tmp/model",
    config_ := { image_shape := [512, 512, 3], gpu_count := 0,
                 post_nms_rois_training := 200, post_nms_rois_inference := 100 },
    root := example_root,
    anchors_ := example_tensor [4, 4],
    requires_grad := fun _ => true,
    is_training := fun _ => true }

/-- Output of `PredictRPN` in the worked examples. -/
def example_rpn (proposal_count : Int) :
    (List (Tensor Scalar) × Tensor Scalar × Tensor Scalar × Tensor Scalar) × List Call :=
  match PredictRPN (example_collaborators (example_tensor [0]) (example_tensor [0]))
      example_model (example_tensor [1, 3, 4]) proposal_count with
  | .ok x => x
  | .error _ => (([], example_tensor [0], example_tensor [0], example_tensor [0]), [])

/-- Result of `PredictInference` in the worked examples, for the given output
of the detection layer. -/
def example_inference (detections : Tensor Scalar) : Run (Tensor Scalar × Tensor Scalar) :=
  match PredictInference (example_collaborators detections (example_tensor [0]))
      example_model (example_tensor [1, 3, 4]) [()] with
  | .ok r => r
  | .error _ => { value := (example_tensor [0], example_tensor [0]), calls := [],
                  is_training := fun _ => false }

/-- A pattern over parameter names for the worked examples: the literal
text `s`. -/
def regex_literal (s : String) : RegularExpression Char :=
  s.data.foldr (fun c r => RegularExpression.comp (RegularExpression.char c) r)
    RegularExpression.epsilon

/-- A pattern over parameter names for the worked examples: any text over the
characters of `s`. -/
def regex_any_of (s : String) : RegularExpression Char :=
  RegularExpression.star
    (s.data.foldr (fun c r => RegularExpression.plus (RegularExpression.char c) r)
      RegularExpression.zero)

/-- The pattern written `mask\..*` over lower-case names. -/
def mask_heads_regex : RegularExpression Char :=
  RegularExpression.comp (regex_literal "mask.")
    (regex_any_of "abcdefghijklmnopqrstuvwxyz0123456789._")

/-- The pattern written `(fpn|mask)\..*` over lower-case names. -/
def fpn_or_mask_regex : RegularExpression Char :=
  RegularExpression.comp
    (RegularExpression.plus (regex_literal "fpn.") (regex_literal "mask."))
    (regex_any_of "abcdefghijklmnopqrstuvwxyz0123456789._")

/-- Whole-string match of a name against a pattern of the worked examples. -/
def example_regex_match (name : String) (re : RegularExpression Char) : Bool :=
  re.rmatch name.data

/-! ## Shared lemmas -/

/-- The constant p of Build is 64. -/
theorem static_cast_int32_pow : static_cast_int32 ((2 : ℚ) ^ 6) = 64 := by
  have h : ((2 : ℚ) ^ 6) = ((64 : ℤ) : ℚ) := by norm_num
  rw [static_cast_int32, h, if_pos (by norm_num), Int.floor_intCast]

/-- Truncating the exact quotient by 64 gives the truncating integer
quotient. -/
theorem static_cast_int32_div (h : Int) :
    static_cast_int32 ((h : ℚ) / ((64 : ℤ) : ℚ)) = Int.tdiv h 64 := by
  unfold static_cast_int32
  have e : (((64 : ℤ) : ℚ)) = (((64 : ℕ) : ℚ)) := by norm_num
  rcases le_or_lt 0 h with hh | hh
  · have hq : (0 : ℚ) ≤ (h : ℚ) / ((64 : ℤ) : ℚ) := by
      apply div_nonneg
      · exact_mod_cast hh
      · norm_num
    rw [if_pos hq, e, Rat.floor_intCast_div_natCast]
    obtain ⟨n, rfl⟩ := Int.eq_ofNat_of_zero_le hh
    norm_cast
  · have hq : ¬ (0 : ℚ) ≤ (h : ℚ) / ((64 : ℤ) : ℚ) := by
      rw [not_le]
      apply div_neg_of_neg_of_pos
      · exact_mod_cast hh
      · norm_num
    rw [if_neg hq, e]
    have hc : ⌈(h : ℚ) / ((64 : ℕ) : ℚ)⌉ = -⌊((-h : ℤ) : ℚ) / ((64 : ℕ) : ℚ)⌋ := by
      rw [← Int.ceil_neg]
      congr 1
      push_cast
      ring
    rw [hc, Rat.floor_intCast_div_natCast]
    obtain ⟨n, hn⟩ := Int.eq_ofNat_of_zero_le (show (0 : ℤ) ≤ -h by omega)
    have hh2 : h = -(n : ℤ) := by omega
    subst hh2
    simp only [neg_neg]
    rw [Int.neg_tdiv]
    norm_cast

/-- The condition guarding the throw in Build is false for every pair of
integers. -/
theorem image_size_check_false (h w : Int) : image_size_check h w = false := by
  simp only [image_size_check, static_cast_int32_pow, static_cast_int32_div]
  simp

/-! ## Build -/

/-- Claim C1: with the configured image shape 500 x 500, not divisible by 64,
the condition guarding the throw in Build is false and Build returns normally
instead of raising the configuration error. -/
theorem Build_accepts_500x500 :
    ¬ (64 : Int) ∣ 500 ∧ image_size_check 500 500 = false ∧
      ∃ st, Build { image_shape := [500, 500, 3], gpu_count := 0,
                    post_nms_rois_training := 200, post_nms_rois_inference := 100 }
              (Module.mk "FPNImpl" [] []) (Module.mk "RPNImpl" [] [])
              (Module.mk "ClassifierImpl" [] []) (Module.mk "MaskImpl" [] [])
              (fun _ => true) = Except.ok st := by
  refine ⟨by decide, image_size_check_false 500 500, ?_⟩
  simp only [Build, image_size_check_false]
  exact ⟨_, rfl⟩

/-- Claim C7: a batch-normalization module registered under the key bn1 of the
feature pyramid keeps gradient tracking enabled on its weight after Build,
although its type name identifies it as batch normalization. -/
theorem Build_leaves_bn1_trainable :
    is_bn_module (Module.mk "torch::nn::BatchNormImpl" [("weight", 0), ("bias", 1)] []) = true ∧
      ∃ root flags,
        Build { image_shape := [512, 512, 3], gpu_count := 0,
                post_nms_rois_training := 200, post_nms_rois_inference := 100 }
          (Module.mk "FPNImpl" []
            [("bn1", Module.mk "torch::nn::BatchNormImpl" [("weight", 0), ("bias", 1)] [])])
          (Module.mk "RPNImpl" [] []) (Module.mk "ClassifierImpl" [] [])
          (Module.mk "MaskImpl" [] []) (fun _ => true) = Except.ok (root, flags) ∧
        Module.named_parameters "" root = [("fpn.bn1.weight", 0), ("fpn.bn1.bias", 1)] ∧
        flags 0 = true ∧ flags 1 = true := by
  refine ⟨by decide, ?_⟩
  simp only [Build, image_size_check_false]
  exact ⟨_, _, rfl, by decide, by decide, by decide⟩

/-- A module registered under a key that contains BatchNorm is frozen by
Build, whatever its type. -/
theorem Build_freezes_BatchNorm_key :
    ∃ root flags,
      Build { image_shape := [512, 512, 3], gpu_count := 0,
              post_nms_rois_training := 200, post_nms_rois_inference := 100 }
        (Module.mk "FPNImpl" []
          [("BatchNorm2d", Module.mk "torch::nn::BatchNormImpl" [("weight", 0)] [])])
        (Module.mk "RPNImpl" [] []) (Module.mk "ClassifierImpl" [] [])
        (Module.mk "MaskImpl" [("weight", 1)] []) (fun _ => true) = Except.ok (root, flags) ∧
      flags 0 = false ∧ flags 1 = true := by
  simp only [Build, image_size_check_false]
  exact ⟨_, _, rfl, by decide, by decide⟩

/-! ## SetTrainableLayers -/

section SetTrainableLayers

variable {Regex : Type} (regex_match : String → Regex → Bool)

/-- The flag of a tensor after the loop: it is on when it was on and no item of
the dictionary refers to the tensor under a name that the pattern does not
match. -/
theorem SetTrainableLayers_loop_apply (re : Regex) (params : List (String × TensorId)) :
    ∀ (flags : GradFlags) (t : TensorId),
      SetTrainableLayers_loop regex_match re params flags t =
        (flags t && params.all (fun x => x.2 != t || regex_match x.1 re)) := by
  induction params with
  | nil => intro flags t; simp [SetTrainableLayers_loop]
  | cons x xs ih =>
    intro flags t
    simp only [SetTrainableLayers_loop, ih, List.all_cons]
    cases hm : regex_match x.1 re
    · by_cases hx : t = x.2
      · subst hx; simp [set_requires_grad]
      · have hx2 : (x.2 != t) = true := by
          rw [bne_iff_ne]
          exact fun h => hx h.symm
        simp [set_requires_grad, hx, hx2]
    · simp

/-- The flag of a tensor after SetTrainableLayers, in closed form. -/
theorem SetTrainableLayers_apply (re : Regex) (root : Module) (flags : GradFlags)
    (t : TensorId) :
    SetTrainableLayers regex_match re root flags t =
      (flags t &&
        (Module.named_parameters "" root).all (fun x => x.2 != t || regex_match x.1 re)) := by
  simp only [SetTrainableLayers, SetTrainableLayers_loop_apply]

/-- Claim C2, amended: after SetTrainableLayers, every parameter registered
under a name that the pattern does not match has its flag off; every tensor
all of whose registered names are matched keeps the flag it had; and when no
tensor is registered under two names, every parameter whose name is matched
keeps the flag it had. -/
theorem SetTrainableLayers_flags (re : Regex) (root : Module) (flags : GradFlags) :
    (∀ x ∈ Module.named_parameters "" root, regex_match x.1 re = false →
        SetTrainableLayers regex_match re root flags x.2 = false) ∧
      (∀ t, (∀ x ∈ Module.named_parameters "" root, x.2 = t → regex_match x.1 re = true) →
        SetTrainableLayers regex_match re root flags t = flags t) ∧
      (((Module.named_parameters "" root).map Prod.snd).Nodup →
        ∀ x ∈ Module.named_parameters "" root, regex_match x.1 re = true →
          SetTrainableLayers regex_match re root flags x.2 = flags x.2) := by
  have h2 : ∀ t, (∀ x ∈ Module.named_parameters "" root, x.2 = t →
      regex_match x.1 re = true) →
      SetTrainableLayers regex_match re root flags t = flags t := by
    intro t ht
    rw [SetTrainableLayers_apply]
    have hall : (Module.named_parameters "" root).all
        (fun x => x.2 != t || regex_match x.1 re) = true := by
      rw [List.all_eq_true]
      intro x hx
      by_cases hxt : x.2 = t
      · simp [ht x hx hxt]
      · simp [hxt]
    rw [hall, Bool.and_true]
  refine ⟨?_, h2, ?_⟩
  · intro x hx hm
    rw [SetTrainableLayers_apply]
    have hall : (Module.named_parameters "" root).all
        (fun y => y.2 != x.2 || regex_match y.1 re) = false := by
      rw [List.all_eq_false]
      exact ⟨x, hx, by simp [hm]⟩
    rw [hall, Bool.and_false]
  · intro hnd x hx hm
    apply h2
    intro y hy hyx
    have hxy : y = x := List.inj_on_of_nodup_map hnd hy hx hyx
    rw [hxy]
    exact hm

/-- Claim C3: applying SetTrainableLayers twice with the same pattern leaves
every gradient flag as one application does. -/
theorem SetTrainableLayers_idempotent (re : Regex) (root : Module) (flags : GradFlags) :
    SetTrainableLayers regex_match re root (SetTrainableLayers regex_match re root flags) =
      SetTrainableLayers regex_match re root flags := by
  funext t
  simp only [SetTrainableLayers_apply, Bool.and_assoc, Bool.and_self]

/-- Claim C10, amended: after SetTrainableLayers with p and then with q, a
tensor is trainable exactly when it was trainable before and every name it is
registered under is matched by both patterns; the two calls commute; and a
tensor whose flag is off stays off under any later call. -/
theorem SetTrainableLayers_only_shrinks (p q : Regex) (root : Module) (flags : GradFlags) :
    (∀ t, SetTrainableLayers regex_match q root
          (SetTrainableLayers regex_match p root flags) t = true ↔
        flags t = true ∧
          ∀ x ∈ Module.named_parameters "" root, x.2 = t →
            regex_match x.1 p = true ∧ regex_match x.1 q = true) ∧
      SetTrainableLayers regex_match q root (SetTrainableLayers regex_match p root flags) =
        SetTrainableLayers regex_match p root (SetTrainableLayers regex_match q root flags) ∧
      (∀ t, flags t = false → SetTrainableLayers regex_match q root flags t = false) := by
  refine ⟨?_, ?_, ?_⟩
  · intro t
    simp only [SetTrainableLayers_apply, Bool.and_eq_true, List.all_eq_true, Bool.or_eq_true,
      bne_iff_ne, ne_eq]
    constructor
    · rintro ⟨⟨hf, hp⟩, hq⟩
      refine ⟨hf, fun x hx hxt => ⟨?_, ?_⟩⟩
      · rcases hp x hx with h | h
        · exact absurd hxt h
        · exact h
      · rcases hq x hx with h | h
        · exact absurd hxt h
        · exact h
    · rintro ⟨hf, h⟩
      refine ⟨⟨hf, fun x hx => ?_⟩, fun x hx => ?_⟩
      · by_cases hxt : x.2 = t
        · exact Or.inr (h x hx hxt).1
        · exact Or.inl hxt
      · by_cases hxt : x.2 = t
        · exact Or.inr (h x hx hxt).2
        · exact Or.inl hxt
  · funext t
    simp only [SetTrainableLayers_apply, Bool.and_right_comm]
  · intro t ht
    simp [SetTrainableLayers_apply, ht]

end SetTrainableLayers

/-! ## GetCheckpointPath -/

/-- Paths returned for three model directories. -/
theorem GetCheckpointPath_examples :
    GetCheckpointPath "/tmp/model" 12 = "/tmp/model/checkpoint_epoch_12.pt" ∧
      GetCheckpointPath "/tmp/model/" 0 = "/tmp/model/checkpoint_epoch_0.pt" ∧
      GetCheckpointPath "" 4294967295 = "checkpoint_epoch_4294967295.pt" := by
  decide

section Forward
variable {α Meta : Type}

/-- Components invoked by a run of PredictRPN that returns. -/
theorem PredictRPN_calls (C : Collaborators α Meta) (self : MaskRCNNImpl α)
    (images : Tensor α) (proposal_count : Int)
    (out : List (Tensor α) × Tensor α × Tensor α × Tensor α) (calls : List Call)
    (h : PredictRPN C self images proposal_count = .ok (out, calls)) :
    calls = [Call.fpn, Call.rpn, Call.rpn, Call.rpn, Call.rpn, Call.rpn, Call.ProposalLayer] := by
  unfold PredictRPN at h
  simp only [List.foldl_cons, List.foldl_nil, bind, Except.bind, pure, Except.pure] at h
  split at h
  · cases h
  · split at h
    · cases h
    · split at h
      · cases h
      · simp at h
        exact h.2.symm

/-- Inserting a leading dimension always succeeds. -/
theorem unsqueeze_zero (t : Tensor α) :
    t.unsqueeze 0 = .ok { t with sizes := 1 :: t.sizes,
                                  elem_at := fun idx => t.elem_at (idx.eraseIdx 0) } := by
  simp [Tensor.unsqueeze]

/-- Taking the first four columns of a matrix with at least four columns
succeeds. -/
theorem narrow_cols (t : Tensor α) (n k : Nat) (hs : t.sizes = [n, k]) (hk : 4 ≤ k) :
    t.narrow 1 0 4 = .ok { t with sizes := [n, 4],
                                  elem_at := fun idx => t.elem_at (idx.set 1 (idx.getD 1 0 + 0)) } := by
  simp [Tensor.narrow, Tensor.dim, hs, hk]

/-- Dividing a matrix with four columns by a vector of four elements on the
same device succeeds. -/
theorem div_scale [Div α] (a b : Tensor α) (n : Nat) (ha : a.sizes = [n, 4]) (hb : b.sizes = [4])
    (hdev : a.device = b.device) :
    a.div b = .ok { sizes := [n, 4],
                    elem_at := fun idx =>
                      a.elem_at (broadcast_index a.sizes.reverse idx.reverse).reverse /
                        b.elem_at (broadcast_index b.sizes.reverse idx.reverse).reverse,
                    dtype := a.dtype, device := a.device,
                    requires_grad := a.requires_grad || b.requires_grad } := by
  simp [Tensor.div, hdev, ha, hb, broadcast_sizes]

/-- The permutation applied by Detect to a tensor with five dimensions. -/
theorem permute_mask (m : Tensor α) (B N K H W : Nat) (hs : m.sizes = [B, N, K, H, W]) :
    ∃ t, m.permute [0, 1, 3, 4, 2] = .ok t ∧ t.sizes = [B, N, H, W, K] ∧
      t.device = m.device ∧
      ∀ b n y x c, t.elem_at [b, n, y, x, c] = m.elem_at [b, n, c, y, x] := by
  have hp : m.permute [0, 1, 3, 4, 2] =
      .ok { m with sizes := [0, 1, 3, 4, 2].map (fun d => m.sizes.getD d 0),
                   elem_at := fun idx =>
                     m.elem_at ((List.range m.dim).map
                       (fun j => idx.getD ([0, 1, 3, 4, 2].indexOf j) 0)) } := by
    rw [Tensor.permute, if_pos]
    simp only [Tensor.dim, hs, List.length_cons, List.length_nil]
    decide
  refine ⟨_, hp, ?_, rfl, ?_⟩
  · simp [hs]
  · intro b n y x c
    simp only [Tensor.dim, hs]
    rfl

variable [Div α] [IntCast α]

/-- Claim C5: let detections be what the detection layer returns in a run of
PredictInference whose region-proposal stage returned. If detections is empty,
PredictInference returns detections itself together with the placeholder
torch::empty of sizes [0], which has no element, and the mask head is not
invoked. If detections is not empty, every returned pair consists of
detections with a leading dimension of size one and of the output of the mask
head with a leading dimension of size one, and PredictInference does return
when detections is a matrix with at least four columns on the device of the
scale tensor. -/
theorem PredictInference_result (C : Collaborators α Meta) (self : MaskRCNNImpl α)
    (images : Tensor α) (image_metas : List Meta)
    (out : List (Tensor α) × Tensor α × Tensor α × Tensor α) (calls : List Call)
    (hrpn : PredictRPN C self images self.config_.post_nms_rois_inference = .ok (out, calls)) :
    let heads := C.classifier_forward out.1 out.2.1
    let detections := C.DetectionLayer self.config_ out.2.1 heads.2.1 heads.2.2 image_metas
    (C.is_empty detections = true →
      ∃ r, PredictInference C self images image_metas = .ok r ∧
        r.value.1 = detections ∧
        r.value.2 = torch_empty C.uninitialized [0] ScalarType.kFloat ∧
        r.value.2.sizes = [0] ∧ r.value.2.numel = 0 ∧
        Call.mask ∉ r.calls) ∧
    (C.is_empty detections = false →
      ∀ r, PredictInference C self images image_metas = .ok r →
        r.value.1.sizes = 1 :: detections.sizes ∧
        (∀ i idx, r.value.1.elem_at (i :: idx) = detections.elem_at idx) ∧
        (∃ boxes, r.value.2.sizes = 1 :: (C.mask_forward out.1 boxes).sizes ∧
          ∀ i idx, r.value.2.elem_at (i :: idx) = (C.mask_forward out.1 boxes).elem_at idx) ∧
        Call.mask ∈ r.calls) ∧
    (∀ n k, detections.sizes = [n, k] → 4 ≤ k →
      detections.device = (if self.config_.gpu_count > 0 then Device.CUDA else Device.CPU) →
      ∃ r, PredictInference C self images image_metas = .ok r) := by
  have hcalls := PredictRPN_calls C self images _ out calls hrpn
  obtain ⟨fm, rois, cl, dl⟩ := out
  intro heads detections
  refine ⟨?_, ?_, ?_⟩
  · intro hempty
    refine ⟨⟨(detections, torch_empty C.uninitialized [0] ScalarType.kFloat),
      calls ++ [Call.classifier, Call.DetectionLayer],
      Module.train false "" self.root self.is_training⟩, ?_, ?_⟩
    · simp only [PredictInference, hrpn, bind, Except.bind, pure, Except.pure]
      simp only [detections, heads] at hempty
      simp only [hempty]
      rfl
    · subst hcalls
      refine ⟨rfl, rfl, rfl, rfl, by simp⟩
  · intro hne r hr
    simp only [PredictInference, hrpn, bind, Except.bind, pure, Except.pure] at hr
    simp only [detections, heads] at hne
    simp only [hne, unsqueeze_zero] at hr
    rcases hn : Tensor.narrow (C.DetectionLayer self.config_ rois (C.classifier_forward fm rois).2.1
        (C.classifier_forward fm rois).2.2 image_metas) 1 0 4 with e | nb
    · simp [hn] at hr
    · simp only [hn] at hr
      rcases hd : Tensor.div nb (if self.config_.gpu_count > 0 then
          (torch_tensor (↑(self.config_.image_shape.getD 0 0) : α)
            ↑(self.config_.image_shape.getD 1 0)
            ↑(self.config_.image_shape.getD 0 0) ↑(self.config_.image_shape.getD 1 0)).cuda
        else
          torch_tensor (↑(self.config_.image_shape.getD 0 0) : α)
            ↑(self.config_.image_shape.getD 1 0)
            ↑(self.config_.image_shape.getD 0 0) ↑(self.config_.image_shape.getD 1 0)) with e | db
      · rw [hd] at hr
        cases hr
      · rw [hd] at hr
        simp only [Bool.not_false, if_true, Except.ok.injEq] at hr
        subst hr
        refine ⟨rfl, fun _ _ => rfl, ⟨_, rfl, fun _ _ => rfl⟩, by simp⟩
  · intro n k hs hk hdev
    simp only [detections, heads] at hs hdev
    have hn := narrow_cols _ n k hs hk
    simp only [PredictInference, hrpn, bind, Except.bind, pure, Except.pure, hn, unsqueeze_zero]
    rw [div_scale _ _ n rfl (by split <;> rfl) (by
      dsimp only
      rw [hdev]
      split <;> rfl)]
    split <;> exact ⟨_, rfl⟩

/-- Claim C9: let PredictInference return detections and a mask m. If m is not
empty and has sizes [B, N, K, H, W], Detect returns a mask of sizes
[B, N, H, W, K] whose element at (b, n, y, x, c) is the element of m at
(b, n, c, y, x). If m is empty, Detect returns m itself. In both cases the
detections are the host copy of those of PredictInference, with the same sizes
and elements. -/
theorem Detect_result (C : Collaborators α Meta) (self : MaskRCNNImpl α)
    (images : Tensor α) (image_metas : List Meta) (r : Run (Tensor α × Tensor α))
    (hP : PredictInference C self images image_metas = .ok r) :
    (C.is_empty r.value.2 = false → ∀ B N K H W, r.value.2.sizes = [B, N, K, H, W] →
      ∃ m, Detect C self images image_metas = .ok { r with value := (r.value.1.cpu, m) } ∧
        m.sizes = [B, N, H, W, K] ∧
        ∀ b n y x c, m.elem_at [b, n, y, x, c] = r.value.2.elem_at [b, n, c, y, x]) ∧
    (C.is_empty r.value.2 = true →
      Detect C self images image_metas = .ok { r with value := (r.value.1.cpu, r.value.2) }) ∧
    r.value.1.cpu.sizes = r.value.1.sizes ∧ r.value.1.cpu.elem_at = r.value.1.elem_at := by
  refine ⟨?_, ?_, rfl, rfl⟩
  · intro hne B N K H W hs
    obtain ⟨t, ht, hts, -, hte⟩ := permute_mask r.value.2 B N K H W hs
    refine ⟨t.cpu, ?_, hts, hte⟩
    simp only [Detect, hP, bind, Except.bind, pure, Except.pure, hne, ht]
    rfl
  · intro he
    simp only [Detect, hP, bind, Except.bind, pure, Except.pure, he]
    rfl

/-- When the sampled rois are empty, PredictTraining returns without invoking
the classifier head or the mask head, and each of the three placeholders is a
tensor without dimension: it has one element, which is whatever the fresh
memory holds. -/
theorem PredictTraining_empty_rois (C : Collaborators α Meta) (self : MaskRCNNImpl α)
    (images gt_class_ids gt_boxes gt_masks : Tensor α)
    (out : List (Tensor α) × Tensor α × Tensor α × Tensor α) (calls : List Call)
    (boxes : Tensor α)
    (hrpn : PredictRPN C self images self.config_.post_nms_rois_training = .ok (out, calls))
    (hdiv : gt_boxes.div
        (if self.config_.gpu_count > 0 then
          (torch_tensor ((self.config_.image_shape.getD 0 0 : Int) : α)
            ((self.config_.image_shape.getD 1 0 : Int) : α)
            ((self.config_.image_shape.getD 0 0 : Int) : α)
            ((self.config_.image_shape.getD 1 0 : Int) : α)).cuda
        else
          torch_tensor ((self.config_.image_shape.getD 0 0 : Int) : α)
            ((self.config_.image_shape.getD 1 0 : Int) : α)
            ((self.config_.image_shape.getD 0 0 : Int) : α)
            ((self.config_.image_shape.getD 1 0 : Int) : α)) = .ok boxes)
    (hempty : C.is_empty
        (C.DetectionTargetLayer self.config_ out.2.1 gt_class_ids boxes gt_masks).1 = true) :
    ∃ r, PredictTraining C self images gt_class_ids gt_boxes gt_masks = .ok r ∧
      Call.classifier ∉ r.calls ∧ Call.mask ∉ r.calls ∧
      (r.value.mrcnn_class_logits.sizes = [] ∧ r.value.mrcnn_class_logits.numel = 1 ∧
        r.value.mrcnn_class_logits.elem_at [] = C.uninitialized []) ∧
      (r.value.mrcnn_bbox.sizes = [] ∧ r.value.mrcnn_bbox.numel = 1 ∧
        r.value.mrcnn_bbox.elem_at [] = C.uninitialized []) ∧
      (r.value.mrcnn_mask.sizes = [] ∧ r.value.mrcnn_mask.numel = 1 ∧
        r.value.mrcnn_mask.elem_at [] = C.uninitialized []) := by
  have hcalls := PredictRPN_calls C self images _ out calls hrpn
  obtain ⟨fm, rois, cl, dl⟩ := out
  simp only [PredictTraining, hrpn, bind, Except.bind, pure, Except.pure]
  rw [hdiv]
  simp only [hempty, Bool.not_true]
  subst hcalls
  refine ⟨_, rfl, by simp, by simp, ?_, ?_, ?_⟩ <;>
    (dsimp only; split <;> exact ⟨rfl, rfl, rfl⟩)

end Forward

/-- The region-proposal stage returns in the worked examples. -/
theorem example_rpn_eq (n : Int) :
    PredictRPN (example_collaborators (example_tensor [0]) (example_tensor [0]))
      example_model (example_tensor [1, 3, 4]) n = .ok (example_rpn n) := by
  rfl

/-- Claim C6: in a training pass whose detection target layer returns empty
rois, PredictTraining returns its eight tensors without invoking the
classifier head or the mask head, and each of the three placeholders
(classifier class logits, classifier box deltas, predicted masks) has sizes []
and one element, here a not-a-number value left in the fresh memory; none of
them is a tensor with zero elements. -/
theorem PredictTraining_placeholders_hold_one_element :
    ∃ r, PredictTraining (example_collaborators (example_tensor [0]) (example_tensor [0]))
        example_model (example_tensor [1, 3, 4]) (example_tensor [1, 2])
        (example_tensor [1, 2, 4]) (example_tensor [1, 2, 5, 5]) = .ok r ∧
      Call.classifier ∉ r.calls ∧ Call.mask ∉ r.calls ∧
      (r.value.mrcnn_class_logits.sizes = [] ∧ r.value.mrcnn_class_logits.numel = 1 ∧
        r.value.mrcnn_class_logits.elem_at [] = Scalar.nan) ∧
      (r.value.mrcnn_bbox.sizes = [] ∧ r.value.mrcnn_bbox.numel = 1 ∧
        r.value.mrcnn_bbox.elem_at [] = Scalar.nan) ∧
      (r.value.mrcnn_mask.sizes = [] ∧ r.value.mrcnn_mask.numel = 1 ∧
        r.value.mrcnn_mask.elem_at [] = Scalar.nan) :=
  PredictTraining_empty_rois (example_collaborators (example_tensor [0]) (example_tensor [0]))
    example_model (example_tensor [1, 3, 4]) (example_tensor [1, 2])
    (example_tensor [1, 2, 4]) (example_tensor [1, 2, 5, 5]) (example_rpn 200).1 (example_rpn 200).2 _
    (example_rpn_eq 200) rfl rfl

/-- Claim C5 on the worked examples: without detections the mask has sizes [0]
and the mask head is not invoked; with two detections both results get a
leading dimension of size one. -/
theorem PredictInference_result_witness :
    PredictRPN (example_collaborators (example_tensor [0]) (example_tensor [0]))
        example_model (example_tensor [1, 3, 4]) 100 = .ok (example_rpn 100) ∧
      (∃ r, PredictInference (example_collaborators (example_tensor [0]) (example_tensor [0]))
          example_model (example_tensor [1, 3, 4]) [()] = .ok r ∧
        r.value.1.sizes = [0] ∧ r.value.2.sizes = [0] ∧ r.value.2.numel = 0 ∧
        Call.mask ∉ r.calls) ∧
      (∃ r, PredictInference (example_collaborators (example_tensor [2, 6]) (example_tensor [0]))
          example_model (example_tensor [1, 3, 4]) [()] = .ok r ∧
        r.value.1.sizes = [1, 2, 6] ∧ r.value.2.sizes = [1, 2, 3, 5, 7] ∧
        Call.mask ∈ r.calls) := by
  refine ⟨example_rpn_eq 100, ?_, ?_⟩
  · obtain ⟨r, hr, h1, -, h3, h4, h5⟩ :=
      (PredictInference_result (example_collaborators (example_tensor [0]) (example_tensor [0]))
        example_model (example_tensor [1, 3, 4]) [()] (example_rpn 100).1 (example_rpn 100).2
        (example_rpn_eq 100)).1 rfl
    exact ⟨r, hr, by rw [h1]; rfl, h3, h4, h5⟩
  · have h :=
      PredictInference_result (example_collaborators (example_tensor [2, 6]) (example_tensor [0]))
        example_model (example_tensor [1, 3, 4]) [()] (example_rpn 100).1 (example_rpn 100).2 rfl
    obtain ⟨r, hr⟩ := h.2.2 2 6 rfl (by decide) rfl
    obtain ⟨h1, -, -, h3⟩ := h.2.1 rfl r hr
    have hr2 : r = example_inference (example_tensor [2, 6]) :=
      Except.ok.inj (hr.symm.trans rfl)
    exact ⟨r, hr, h1, by rw [hr2]; rfl, h3⟩

/-- Claim C9 on the worked examples: a mask of sizes [1, 2, 3, 5, 7] is
returned with sizes [1, 2, 5, 7, 3] and its element at (0, 1, 2, 4, 6) is found
at (0, 1, 4, 6, 2); an empty mask is returned as it is. -/
theorem Detect_result_witness :
    PredictInference (example_collaborators (example_tensor [2, 6]) (example_tensor [0]))
        example_model (example_tensor [1, 3, 4]) [()] =
        .ok (example_inference (example_tensor [2, 6])) ∧
      (example_inference (example_tensor [2, 6])).value.2.sizes = [1, 2, 3, 5, 7] ∧
      (example_inference (example_tensor [2, 6])).value.2.elem_at [0, 1, 2, 4, 6] =
        Scalar.num 1246 ∧
      (∃ r, Detect (example_collaborators (example_tensor [2, 6]) (example_tensor [0]))
          example_model (example_tensor [1, 3, 4]) [()] = .ok r ∧
        r.value.1.sizes = [1, 2, 6] ∧ r.value.2.sizes = [1, 2, 5, 7, 3] ∧
        r.value.2.elem_at [0, 1, 4, 6, 2] = Scalar.num 1246) ∧
      Detect (example_collaborators (example_tensor [0]) (example_tensor [0]))
          example_model (example_tensor [1, 3, 4]) [()] =
        .ok { example_inference (example_tensor [0]) with
              value := ((example_inference (example_tensor [0])).value.1.cpu,
                        (example_inference (example_tensor [0])).value.2) } := by
  refine ⟨rfl, rfl, rfl, ?_, ?_⟩
  · obtain ⟨m, hm, hs, he⟩ :=
      (Detect_result (example_collaborators (example_tensor [2, 6]) (example_tensor [0]))
        example_model (example_tensor [1, 3, 4]) [()] (example_inference (example_tensor [2, 6]))
        rfl).1 rfl 1 2 3 5 7 rfl
    exact ⟨_, hm, rfl, hs, by rw [he]; rfl⟩
  · exact (Detect_result (example_collaborators (example_tensor [0]) (example_tensor [0]))
        example_model (example_tensor [1, 3, 4]) [()] (example_inference (example_tensor [0]))
        rfl).2.1 rfl

/-- A training pass of the worked examples with two sampled rois: the
components invoked, the sizes of the predicted masks, and the module modes,
where only the batch-normalization module is left in evaluation mode. -/
theorem PredictTraining_modes_example :
    ∃ r, PredictTraining (example_collaborators (example_tensor [0]) (example_tensor [2, 4]))
        example_model (example_tensor [1, 3, 4]) (example_tensor [1, 2])
        (example_tensor [1, 2, 4]) (example_tensor [1, 2, 5, 5]) = .ok r ∧
      r.calls = [Call.fpn, Call.rpn, Call.rpn, Call.rpn, Call.rpn, Call.rpn,
        Call.ProposalLayer, Call.DetectionTargetLayer, Call.classifier, Call.mask] ∧
      r.value.mrcnn_mask.sizes = [2, 3, 5, 7] ∧
      r.is_training "" = true ∧ r.is_training "fpn" = true ∧
      r.is_training "fpn.bn1" = false ∧ r.is_training "mask" = true := by
  refine ⟨_, rfl, ?_, ?_, ?_, ?_, ?_, ?_⟩ <;> decide

/-- The dictionary of named parameters of the worked example, and
SetTrainableLayers with the pattern for the names of the mask head: the
parameters outside the mask head are frozen and those of the mask head keep
their flags; the pattern must match the whole name. -/
theorem SetTrainableLayers_mask_heads_example :
    Module.named_parameter_flags example_root (fun _ => true) =
        [("fpn.weight", true), ("fpn.bn1.weight", true), ("fpn.bn1.bias", true),
         ("mask.weight", true)] ∧
      Module.named_parameter_flags example_root
          (SetTrainableLayers example_regex_match mask_heads_regex example_root
            (fun _ => true)) =
        [("fpn.weight", false), ("fpn.bn1.weight", false), ("fpn.bn1.bias", false),
         ("mask.weight", true)] ∧
      example_regex_match "mask.conv1.weight" (regex_literal "mask") = false := by
  decide

/-- Claim C2 as stated fails: in a model whose feature pyramid and mask head
register the same tensor, the parameter named mask.shared is matched by the
pattern of the mask head and was trainable, yet it is frozen by
SetTrainableLayers, because the tensor is also registered as fpn.shared. -/
theorem SetTrainableLayers_shared_tensor_frozen :
    Module.named_parameters "" example_shared_root =
        [("fpn.shared", 0), ("fpn.weight", 1), ("mask.shared", 0), ("mask.weight", 2)] ∧
      example_regex_match "mask.shared" mask_heads_regex = true ∧
      (fun _ => true : GradFlags) 0 = true ∧
      SetTrainableLayers example_regex_match mask_heads_regex example_shared_root
        (fun _ => true) 0 = false ∧
      Module.named_parameter_flags example_shared_root
          (SetTrainableLayers example_regex_match mask_heads_regex example_shared_root
            (fun _ => true)) =
        [("fpn.shared", false), ("fpn.weight", false), ("mask.shared", false),
         ("mask.weight", true)] := by
  decide

/-- Claim C2, amended, on the worked example: the weight of the feature pyramid
is frozen, the weight of the mask head keeps its flag, and so does every
matched parameter since no tensor is registered twice. -/
theorem SetTrainableLayers_flags_witness :
    (example_regex_match "fpn.weight" mask_heads_regex = false ∧
        SetTrainableLayers example_regex_match mask_heads_regex example_root
          (fun _ => true) 0 = false) ∧
      ((∀ x ∈ Module.named_parameters "" example_root, x.2 = 3 →
          example_regex_match x.1 mask_heads_regex = true) ∧
        SetTrainableLayers example_regex_match mask_heads_regex example_root
          (fun _ => true) 3 = true) ∧
      (((Module.named_parameters "" example_root).map Prod.snd).Nodup ∧
        example_regex_match "mask.weight" mask_heads_regex = true ∧
        SetTrainableLayers example_regex_match mask_heads_regex example_root
          (fun _ => false) 3 = false) :=
  ⟨⟨by decide,
      (SetTrainableLayers_flags example_regex_match mask_heads_regex example_root
        (fun _ => true)).1 ("fpn.weight", 0) (by decide) (by decide)⟩,
    ⟨by decide,
      (SetTrainableLayers_flags example_regex_match mask_heads_regex example_root
        (fun _ => true)).2.1 3 (by decide)⟩,
    ⟨by decide, by decide,
      (SetTrainableLayers_flags example_regex_match mask_heads_regex example_root
        (fun _ => false)).2.2 (by decide) ("mask.weight", 3) (by decide) (by decide)⟩⟩

/-- Claim C10 as stated fails: in the model with a shared tensor, the
parameter named mask.shared was trainable and its name is matched by both
patterns, yet after the two calls it is frozen, because the second pattern does
not match its other name fpn.shared; the weight of the mask head, registered
once, stays trainable. -/
theorem SetTrainableLayers_twice_shared_tensor_frozen :
    (fun _ => true : GradFlags) 0 = true ∧
      example_regex_match "mask.shared" fpn_or_mask_regex = true ∧
      example_regex_match "mask.shared" mask_heads_regex = true ∧
      SetTrainableLayers example_regex_match mask_heads_regex example_shared_root
        (SetTrainableLayers example_regex_match fpn_or_mask_regex example_shared_root
          (fun _ => true)) 0 = false ∧
      SetTrainableLayers example_regex_match mask_heads_regex example_shared_root
        (SetTrainableLayers example_regex_match fpn_or_mask_regex example_shared_root
          (fun _ => true)) 2 = true := by
  decide

/-- Claim C10, amended, on the worked example: after the two calls the weight
of the mask head, whose only name is matched by both patterns, is trainable,
and a tensor that was frozen before stays frozen. -/
theorem SetTrainableLayers_only_shrinks_witness :
    ((fun _ => true : GradFlags) 3 = true ∧
        (∀ x ∈ Module.named_parameters "" example_root, x.2 = 3 →
          example_regex_match x.1 fpn_or_mask_regex = true ∧
            example_regex_match x.1 mask_heads_regex = true) ∧
        SetTrainableLayers example_regex_match mask_heads_regex example_root
          (SetTrainableLayers example_regex_match fpn_or_mask_regex example_root
            (fun _ => true)) 3 = true) ∧
      ((fun t => decide (t ≠ 3) : GradFlags) 3 = false ∧
        SetTrainableLayers example_regex_match fpn_or_mask_regex example_root
          (fun t => decide (t ≠ 3)) 3 = false) :=
  ⟨⟨by decide, by decide,
      ((SetTrainableLayers_only_shrinks example_regex_match fpn_or_mask_regex mask_heads_regex
        example_root (fun _ => true)).1 3).2 ⟨by decide, by decide⟩⟩,
    ⟨by decide,
      (SetTrainableLayers_only_shrinks example_regex_match mask_heads_regex fpn_or_mask_regex
        example_root (fun t => decide (t ≠ 3))).2.2 3 (by decide)⟩⟩

end MaskRCNN
